import Mathlib

/-!
Shallow embedding of the canteen ordering system (backend of this repository).

The repository snapshot contains the Express route tables
(src/routes/productRoutes.js and the concatenated cart, category, order and
dashboard route files), the integration tests (tests of auth, products, and
cart), the test setup (which seeds the single counter row with id
order_counter and value 0), and the app wiring. The controller and
middleware modules themselves (authController, cartController,
orderController, productController, authMiddleware, adminMiddleware) are
not part of the snapshot, so every controller-level definition below is
modelled from the specification, as indicated in its doc comment, while the
route table, the middleware chains attached to each route, and the seeded
counter row are transcribed from the source files that are present.

Conventions of the embedding: machine state is an explicit record of the
relational tables; fallible handlers return the unchanged state together
with an error value (mirroring a rolled-back transaction); monetary values
are naturals (price in cents); the bcrypt hash and the JWT signature are
modelled as plain injective string taggings, which is all the behavior the
claims depend on.
-/

namespace Canteen

/-- User roles, from the spec data model. -/
inductive Role where
  | CLIENTE
  | ADMIN
deriving DecidableEq, Repr

/-- Order status values, from the spec data model. -/
inductive OrderStatus where
  | PENDENTE
  | EM_PREPARO
  | CONCLUIDO
  | CANCELADO
deriving DecidableEq, Repr

/-- A stored user row.  The password field holds the bcrypt hash. -/
structure User where
  id : Nat
  email : String
  password : String
  name : String
  role : Role
deriving DecidableEq, Repr

/-- A catalog product row. -/
structure Product where
  id : Nat
  name : String
  description : String
  price : Nat
  isAvailable : Bool
  categoryId : Nat
deriving DecidableEq, Repr

/-- A cart row, one per user. -/
structure Cart where
  id : Nat
  userId : Nat
deriving DecidableEq, Repr

/-- A cart line item. -/
structure CartItem where
  id : Nat
  cartId : Nat
  productId : Nat
  quantity : Nat
deriving DecidableEq, Repr

/-- An order row.  Only the status ever changes after creation. -/
structure Order where
  id : Nat
  orderNumber : Nat
  userId : Nat
  status : OrderStatus
  total : Nat
deriving DecidableEq, Repr

/-- A frozen order line item, with the unit price captured at order time. -/
structure OrderItem where
  id : Nat
  orderId : Nat
  productId : Nat
  quantity : Nat
  unitPrice : Nat
deriving DecidableEq, Repr

/-- An append-only status history row. -/
structure OrderStatusHistory where
  id : Nat
  orderId : Nat
  status : OrderStatus
  timestamp : Nat
deriving DecidableEq, Repr

/-- The counter table row; the test setup (tests/setup.js) seeds the single
row with id order_counter and value 0. -/
structure Counter where
  id : String
  value : Nat
deriving DecidableEq, Repr

/-- The whole relational store.  Lists are kept in insertion order, so the
position of an order in the orders list is its creation order.  The time
field is a logical clock used for history timestamps; nextId generates row
ids. -/
structure DB where
  users : List User
  carts : List Cart
  products : List Product
  cartItems : List CartItem
  orders : List Order
  orderItems : List OrderItem
  history : List OrderStatusHistory
  counter : Counter
  nextId : Nat
  time : Nat
deriving DecidableEq, Repr

/-- The database as the test setup leaves it: empty tables and the counter
row order_counter at 0 (tests/setup.js lines 21-38). -/
def initDB : DB :=
  { users := [], carts := [], products := [], cartItems := [], orders := []
    orderItems := [], history := [], counter := { id := "order_counter", value := 0 }
    nextId := 0, time := 0 }

/-- The error taxonomy of the spec (section 7): validation 400,
unauthorized 401, forbidden 403, notFound 404, conflict 409. -/
inductive ApiError where
  | validation (msg : String)
  | unauthorized (msg : String)
  | forbidden (msg : String)
  | notFound (msg : String)
  | conflict (msg : String)
deriving DecidableEq, Repr

/-- The HTTP status code each error class surfaces as (spec section 7). -/
def ApiError.statusCode : ApiError → Nat
  | .validation _ => 400
  | .unauthorized _ => 401
  | .forbidden _ => 403
  | .notFound _ => 404
  | .conflict _ => 409

/-- Modelled from the spec: the bcrypt password hash (the hashing library is
an external collaborator in the spec).  Only the round trip of hashing and
checking matters to the claims, so it is a plain injective tagging. -/
def hashPw (plain : String) : String := "bcrypt$" ++ plain

/-- Modelled from the spec: comparing a submitted password against a stored
hash, as bcrypt compare does. -/
def checkPw (plain stored : String) : Bool := hashPw plain == stored

/-- Modelled from the spec: JWT issuance (external collaborator); the token
content is irrelevant to the claims. -/
def signToken (u : User) : String := "token:" ++ toString u.id

/-- The user record as serialized in responses.  The optional password field
is none exactly when the password attribute is excluded from the JSON
object. -/
structure UserResponse where
  id : Nat
  email : String
  name : String
  role : Role
  password : Option String
deriving DecidableEq, Repr

/-- Serialization of a stored user for a response: every field except the
password, which is excluded (spec section 4.4). -/
def toPublic (u : User) : UserResponse :=
  { id := u.id, email := u.email, name := u.name, role := u.role, password := none }

/-- The token-plus-user payload returned by register and login. -/
structure AuthResp where
  token : String
  user : UserResponse
deriving DecidableEq, Repr

/-- A registration request body. -/
structure RegisterReq where
  email : String
  password : String
  name : String
deriving DecidableEq, Repr

/-- Modelled from the spec: authController register (not in the snapshot).
Spec section 4.4: registration rejects duplicate emails with a Conflict
error and requests missing a required field with a validation error;
section 8 states that a duplicate email yields 409 regardless of the other
field values, so the duplicate check takes precedence; on success the user
is created with role CLIENTE, a cart is created automatically (spec data
model), and the response is a signed token plus the user record with the
password excluded.  Missing fields are modelled as empty strings. -/
def register (db : DB) (req : RegisterReq) : DB × Except ApiError AuthResp :=
  if db.users.any (fun u => u.email == req.email) then
    (db, .error (.conflict "Email ja cadastrado"))
  else if req.email == "" || req.password == "" || req.name == "" then
    (db, .error (.validation "Campos obrigatorios ausentes"))
  else
    let u : User :=
      { id := db.nextId, email := req.email, password := hashPw req.password
        name := req.name, role := .CLIENTE }
    let c : Cart := { id := db.nextId + 1, userId := u.id }
    ({ db with users := db.users ++ [u], carts := db.carts ++ [c], nextId := db.nextId + 2 },
     .ok { token := signToken u, user := toPublic u })

/-- A login request body. -/
structure LoginReq where
  email : String
  password : String
deriving DecidableEq, Repr

/-- Modelled from the spec: authController login (not in the snapshot).
Spec section 4.4: verifies the stored hash against the submitted password
and returns the same token-plus-user shape as register, failing with
Unauthorized and the same non-distinguishing message whether the email is
unknown or the password is wrong. -/
def login (db : DB) (req : LoginReq) : Except ApiError AuthResp :=
  match db.users.find? (fun u => u.email == req.email) with
  | none => .error (.unauthorized "Credenciais invalidas")
  | some u =>
    if checkPw req.password u.password then
      .ok { token := signToken u, user := toPublic u }
    else
      .error (.unauthorized "Credenciais invalidas")

/-- Modelled from the spec: productController create (not in the snapshot).
Creates a catalog product, available by default (spec data model and the
products tests). -/
def createProduct (db : DB) (name description : String) (price : Nat)
    (categoryId : Nat) : DB × Except ApiError Product :=
  if name == "" then (db, .error (.validation "Nome obrigatorio"))
  else
    let p : Product :=
      { id := db.nextId, name := name, description := description, price := price
        isAvailable := true, categoryId := categoryId }
    ({ db with products := db.products ++ [p], nextId := db.nextId + 1 }, .ok p)

/-- The body of a request adding an item to the cart; a missing quantity
field is none. -/
structure AddItemReq where
  productId : Nat
  quantity : Option Nat
deriving DecidableEq, Repr

/-- The quantity an add-item request carries, defaulting to 1 when the
field is absent (spec section 4.1). -/
def AddItemReq.qty (req : AddItemReq) : Nat := req.quantity.getD 1

/-- Bump the quantity of the cart item matching a cart and product by q,
leaving every other item alone. -/
def bumpItem (cartId productId q : Nat) (it : CartItem) : CartItem :=
  if it.cartId == cartId && it.productId == productId then
    { it with quantity := it.quantity + q }
  else it

/-- Modelled from the spec: cartController addItem (not in the snapshot).
Spec section 4.1: fails with NotFound if the product does not exist,
otherwise either creates a CartItem or increments an existing one for the
same cart and product; the quantity must be a positive integer and
defaults to 1 when absent. -/
def addItem (db : DB) (userId : Nat) (req : AddItemReq) : DB × Except ApiError Unit :=
  match db.products.find? (fun p => p.id == req.productId) with
  | none => (db, .error (.notFound "Produto nao encontrado"))
  | some _ =>
    if req.qty == 0 then (db, .error (.validation "Quantidade invalida"))
    else
      match db.carts.find? (fun c => c.userId == userId) with
      | none => (db, .error (.notFound "Carrinho nao encontrado"))
      | some cart =>
        if db.cartItems.any (fun it => it.cartId == cart.id && it.productId == req.productId) then
          ({ db with cartItems := db.cartItems.map (bumpItem cart.id req.productId req.qty) }, .ok ())
        else
          ({ db with
              cartItems := db.cartItems ++
                [{ id := db.nextId, cartId := cart.id, productId := req.productId, quantity := req.qty }]
              nextId := db.nextId + 1 }, .ok ())

/-- Modelled from the spec: cartController updateItem (not in the snapshot).
Fails with NotFound if the item does not belong to the requesting user's
cart; a zero quantity is treated as removal, matching the spec invariant
that zero-quantity items are removed rather than retained. -/
def updateItem (db : DB) (userId itemId quantity : Nat) : DB × Except ApiError Unit :=
  match db.carts.find? (fun c => c.userId == userId) with
  | none => (db, .error (.notFound "Carrinho nao encontrado"))
  | some cart =>
    if db.cartItems.any (fun it => it.id == itemId && it.cartId == cart.id) then
      if quantity == 0 then
        ({ db with cartItems := db.cartItems.filter (fun it => !(it.id == itemId)) }, .ok ())
      else
        ({ db with
            cartItems := db.cartItems.map
              (fun it => if it.id == itemId then { it with quantity := quantity } else it) }, .ok ())
    else (db, .error (.notFound "Item nao encontrado"))

/-- Modelled from the spec: cartController removeItem (not in the snapshot).
Deletes the row when it belongs to the user's cart, NotFound otherwise. -/
def removeItem (db : DB) (userId itemId : Nat) : DB × Except ApiError Unit :=
  match db.carts.find? (fun c => c.userId == userId) with
  | none => (db, .error (.notFound "Carrinho nao encontrado"))
  | some cart =>
    if db.cartItems.any (fun it => it.id == itemId && it.cartId == cart.id) then
      ({ db with cartItems := db.cartItems.filter (fun it => !(it.id == itemId)) }, .ok ())
    else (db, .error (.notFound "Item nao encontrado"))

/-- Modelled from the spec: cartController clearCart (not in the snapshot).
Spec section 4.1: deletes all items of the user's cart in one operation and
leaves the Cart entity itself in place. -/
def clearCart (db : DB) (userId : Nat) : DB × Except ApiError Unit :=
  match db.carts.find? (fun c => c.userId == userId) with
  | none => (db, .error (.notFound "Carrinho nao encontrado"))
  | some cart =>
    ({ db with cartItems := db.cartItems.filter (fun it => !(it.cartId == cart.id)) }, .ok ())

/-- One entry of an explicit order item list. -/
structure OrderReqItem where
  productId : Nat
  quantity : Nat
deriving DecidableEq, Repr

/-- The createOrder request body: either an explicit item list or none,
meaning the current cart contents are consumed (spec section 4.2). -/
structure CreateOrderPayload where
  items : Option (List OrderReqItem)
  notes : String
deriving DecidableEq, Repr

/-- The items of one cart. -/
def cartItemsOf (db : DB) (cartId : Nat) : List CartItem :=
  db.cartItems.filter (fun it => it.cartId == cartId)

/-- The item list an order request resolves to: the explicit list when one
was sent, the cart contents otherwise. -/
def requestedItems (db : DB) (cartId : Nat) (payload : CreateOrderPayload) : List OrderReqItem :=
  match payload.items with
  | some its => its
  | none => (cartItemsOf db cartId).map (fun it => { productId := it.productId, quantity := it.quantity })

/-- Look up every requested product, failing if one is missing or
unavailable (spec section 4.2); on success, pairs each product with the
requested quantity. -/
def resolveProducts (db : DB) : List OrderReqItem → Except ApiError (List (Product × Nat))
  | [] => .ok []
  | it :: rest =>
    match db.products.find? (fun p => p.id == it.productId) with
    | none => .error (.notFound "Produto nao encontrado")
    | some p =>
      if p.isAvailable then
        (resolveProducts db rest).map (fun tl => (p, it.quantity) :: tl)
      else .error (.validation "Produto indisponivel")

/-- The order total: the sum of quantity times current price over the
resolved items (spec section 4.2). -/
def orderTotal (resolved : List (Product × Nat)) : Nat :=
  (resolved.map (fun pr => pr.1.price * pr.2)).sum

/-- The frozen OrderItem copies written with a new order, capturing each
unit price at order time. -/
def snapshotItems (orderId baseId : Nat) (resolved : List (Product × Nat)) : List OrderItem :=
  resolved.enum.map (fun pr =>
    { id := baseId + pr.1, orderId := orderId, productId := pr.2.1.id
      quantity := pr.2.2, unitPrice := pr.2.1.price })

/-- The order row a commit writes: the next id, the incremented counter
value as orderNumber, initial status PENDENTE, total from current
prices. -/
def newOrderOf (db : DB) (userId : Nat) (resolved : List (Product × Nat)) : Order :=
  { id := db.nextId, orderNumber := db.counter.value + 1, userId := userId
    status := .PENDENTE, total := orderTotal resolved }

/-- The successful tail of order creation, after validation: atomically
increments the order_counter row to obtain the next orderNumber, writes
the Order, the frozen OrderItem snapshot, the initial PENDENTE history
row, and clears the source cart when the order was built from one
(spec section 4.2). -/
def commitOrder (db : DB) (userId : Nat) (sourceCartId : Option Nat)
    (resolved : List (Product × Nat)) : DB × Order :=
  ({ db with
      orders := db.orders ++ [newOrderOf db userId resolved]
      orderItems := db.orderItems ++ snapshotItems db.nextId (db.nextId + 1) resolved
      history := db.history ++
        [{ id := db.nextId + 1 + resolved.length, orderId := db.nextId
           status := .PENDENTE, timestamp := db.time }]
      counter := { db.counter with value := db.counter.value + 1 }
      nextId := db.nextId + 2 + resolved.length
      time := db.time + 1
      cartItems :=
        match sourceCartId with
        | some cid => db.cartItems.filter (fun it => !(it.cartId == cid))
        | none => db.cartItems },
   newOrderOf db userId resolved)

/-- Modelled from the spec: orderController createOrder (not in the
snapshot).  Spec section 4.2: consumes the cart contents or an explicit
item list, validates every referenced product exists and is available,
computes the total from current prices, atomically increments the shared
counter for the next orderNumber, and writes the order, the item snapshot
and the initial history row; every failure leaves the state untouched, as
a rolled-back transaction does. -/
def createOrder (db : DB) (userId : Nat) (payload : CreateOrderPayload) :
    DB × Except ApiError Order :=
  match db.carts.find? (fun c => c.userId == userId) with
  | none => (db, .error (.notFound "Carrinho nao encontrado"))
  | some cart =>
    if (requestedItems db cart.id payload).isEmpty then
      (db, .error (.validation "Pedido sem itens"))
    else if (requestedItems db cart.id payload).any (fun it => it.quantity == 0) then
      (db, .error (.validation "Quantidade invalida"))
    else
      match resolveProducts db (requestedItems db cart.id payload) with
      | .error e => (db, .error e)
      | .ok resolved =>
        ((commitOrder db userId (if payload.items.isNone then some cart.id else none) resolved).1,
         .ok (commitOrder db userId (if payload.items.isNone then some cart.id else none) resolved).2)

/-- The status transition relation of the spec state machine (section 4.2):
PENDENTE to EM_PREPARO, EM_PREPARO to CONCLUIDO, PENDENTE to CANCELADO,
and EM_PREPARO to CANCELADO under the admin cancellation policy;
CONCLUIDO and CANCELADO are terminal. -/
def allowedTransition : OrderStatus → OrderStatus → Bool
  | .PENDENTE, .EM_PREPARO => true
  | .EM_PREPARO, .CONCLUIDO => true
  | .PENDENTE, .CANCELADO => true
  | .EM_PREPARO, .CANCELADO => true
  | _, _ => false

/-- Rewrite the status of the order with the given id, leaving every other
order row alone. -/
def setOrderStatus (orders : List Order) (orderId : Nat) (s : OrderStatus) : List Order :=
  orders.map (fun o => if o.id == orderId then { o with status := s } else o)

/-- Apply a validated transition: set the new status and append one history
row; nothing else changes and no history row is overwritten (spec
section 4.2). -/
def applyTransition (db : DB) (orderId : Nat) (s : OrderStatus) : DB :=
  { db with
      orders := setOrderStatus db.orders orderId s
      history := db.history ++
        [{ id := db.nextId, orderId := orderId, status := s, timestamp := db.time }]
      nextId := db.nextId + 1
      time := db.time + 1 }

/-- Modelled from the spec: orderController cancelOrder (not in the
snapshot).  A user may cancel only their own order and only while the
transition to CANCELADO is allowed; an invalid transition fails with a
Conflict error and changes nothing. -/
def cancelOrder (db : DB) (userId orderId : Nat) : DB × Except ApiError Unit :=
  match db.orders.find? (fun o => o.id == orderId) with
  | none => (db, .error (.notFound "Pedido nao encontrado"))
  | some o =>
    if o.userId == userId then
      if allowedTransition o.status .CANCELADO then
        (applyTransition db orderId .CANCELADO, .ok ())
      else (db, .error (.conflict "Pedido nao pode ser cancelado"))
    else (db, .error (.notFound "Pedido nao encontrado"))

/-- Modelled from the spec: orderController updateStatus (not in the
snapshot).  An admin may apply any valid forward transition; an invalid
one fails with a Conflict error, leaving the status and the history
untouched rather than silently succeeding. -/
def updateStatus (db : DB) (orderId : Nat) (s : OrderStatus) : DB × Except ApiError Unit :=
  match db.orders.find? (fun o => o.id == orderId) with
  | none => (db, .error (.notFound "Pedido nao encontrado"))
  | some o =>
    if allowedTransition o.status s then
      (applyTransition db orderId s, .ok ())
    else (db, .error (.conflict "Transicao de status invalida"))

/-- One state-mutating API call, at the granularity the controllers expose.
Read-only handlers (getCart, listings, login, the dashboard) do not change
the store and therefore need no constructor. -/
inductive Step : DB → DB → Prop where
  | reg (db : DB) (req : RegisterReq) : Step db (register db req).1
  | prod (db : DB) (name description : String) (price categoryId : Nat) :
      Step db (createProduct db name description price categoryId).1
  | add (db : DB) (userId : Nat) (req : AddItemReq) : Step db (addItem db userId req).1
  | upd (db : DB) (userId itemId quantity : Nat) : Step db (updateItem db userId itemId quantity).1
  | rem (db : DB) (userId itemId : Nat) : Step db (removeItem db userId itemId).1
  | clear (db : DB) (userId : Nat) : Step db (clearCart db userId).1
  | create (db : DB) (userId : Nat) (payload : CreateOrderPayload) :
      Step db (createOrder db userId payload).1
  | cancel (db : DB) (userId orderId : Nat) : Step db (cancelOrder db userId orderId).1
  | status (db : DB) (orderId : Nat) (s : OrderStatus) : Step db (updateStatus db orderId s).1

/-- States the running system can be in: anything the API can produce from
the seeded initial database. -/
def Reachable (db : DB) : Prop := Relation.ReflTransGen Step initDB db

/-- The order numbering invariant: numbers are issued by the single
order_counter row, every issued number is at most the counter value, and
in creation order the numbers are strictly increasing (hence pairwise
distinct and never reused). -/
def CounterInv (db : DB) : Prop :=
  db.counter.id = "order_counter" ∧
  (db.orders.map (fun o => o.orderNumber)).Pairwise (· < ·) ∧
  ∀ o ∈ db.orders, o.orderNumber ≤ db.counter.value

/-- No cart holds two items for the same product: the pairwise uniqueness
of (cartId, productId) over the cart item table (spec data model). -/
def UniqueCartProduct (db : DB) : Prop :=
  db.cartItems.Pairwise (fun a b => a.cartId ≠ b.cartId ∨ a.productId ≠ b.productId)

/-- The middleware kinds appearing in the transcribed route tables. -/
inductive Middleware where
  | auth
  | admin
  | validateBody
  | uploadSingle
  | handleUploadErr
deriving DecidableEq, Repr

/-- HTTP methods of the transcribed routes. -/
inductive Method where
  | GET
  | POST
  | PUT
  | DELETE
  | PATCH
deriving DecidableEq, Repr

/-- A route table entry: method, path pattern, middleware chain. -/
structure RouteDef where
  method : Method
  path : String
  middlewares : List Middleware
deriving DecidableEq, Repr

/-- The product write routes transcribed from src/routes/productRoutes.js
(lines 161, 212, 242, 282, 325): every one of them runs authMiddleware
then adminMiddleware before its handler. -/
def productWriteRoutes : List RouteDef :=
  [ { method := .POST, path := "/api/products", middlewares := [.auth, .admin, .validateBody] }
  , { method := .PUT, path := "/api/products/:id", middlewares := [.auth, .admin, .validateBody] }
  , { method := .DELETE, path := "/api/products/:id", middlewares := [.auth, .admin] }
  , { method := .PATCH, path := "/api/products/:id/availability", middlewares := [.auth, .admin] }
  , { method := .POST, path := "/api/products/:id/image"
      middlewares := [.auth, .admin, .uploadSingle, .handleUploadErr] } ]

/-- Modelled from the spec: authMiddleware and adminMiddleware (not in the
snapshot).  The request context carries the user a valid bearer token
resolved to, none when the token is absent or invalid.  authMiddleware
rejects with 401 without a valid token; adminMiddleware rejects with 403
when the authenticated user is not an ADMIN (spec sections 6 and 7).  Body
validation and the upload helpers do not touch authorization and pass. -/
def runMiddleware (ctx : Option User) : Middleware → Option ApiError
  | .auth =>
    match ctx with
    | none => some (.unauthorized "Nao autenticado")
    | some _ => none
  | .admin =>
    match ctx with
    | none => some (.unauthorized "Nao autenticado")
    | some u => if u.role = .ADMIN then none else some (.forbidden "Acesso restrito a administradores")
  | _ => none

/-- Run a middleware chain left to right; the first rejection
short-circuits, exactly as Express does. -/
def runChain (ctx : Option User) : List Middleware → Option ApiError
  | [] => none
  | m :: ms =>
    match runMiddleware ctx m with
    | some e => some e
    | none => runChain ctx ms

/-- Dispatch a request on a route: the handler runs only when the whole
middleware chain passes; a rejection returns the error and leaves the
store untouched. -/
def dispatch (r : RouteDef) (ctx : Option User) (db : DB)
    (handler : DB → DB × Except ApiError Unit) : DB × Except ApiError Unit :=
  match runChain ctx r.middlewares with
  | some e => (db, .error e)
  | none => handler db

/-- The query parameters the product listing accepts, each optional
(transcribed from the productRoutes.js swagger block and the products
tests: search, categoryId, minPrice, maxPrice, page, limit). -/
structure ProductQuery where
  page : Option Nat
  limit : Option Nat
  search : Option String
  categoryId : Option Nat
  minPrice : Option Nat
  maxPrice : Option Nat
deriving DecidableEq, Repr

/-- Whether a product matches the listing filters: available (spec section
9: unavailable products are excluded from default listings), text search
over name and description, category, and price bounds. -/
def matchesQuery (q : ProductQuery) (p : Product) : Bool :=
  p.isAvailable &&
  (match q.search with
   | some s => decide (s.data <:+: p.name.data) || decide (s.data <:+: p.description.data)
   | none => true) &&
  (match q.categoryId with
   | some cid => p.categoryId == cid
   | none => true) &&
  (match q.minPrice with
   | some m => decide (m ≤ p.price)
   | none => true) &&
  (match q.maxPrice with
   | some m => decide (p.price ≤ m)
   | none => true)

/-- The pagination object returned alongside the products array
(tests/products.test.js lines 52-61 pin the page, limit and total keys). -/
structure Pagination where
  page : Nat
  limit : Nat
  total : Nat
deriving DecidableEq, Repr

/-- The product listing response body: the products array plus the
pagination object. -/
structure ProductListResp where
  products : List Product
  pagination : Pagination
deriving DecidableEq, Repr

/-- Modelled from the spec: productController getAll (not in the snapshot;
the accepted query parameters are transcribed from the swagger block of
the route, and the page, limit and pagination response keys from the
products tests, as the spec itself never mentions listing pagination or
filters).  Filters the catalog, then returns the page slice and the
pagination object; page defaults to 1 and limit to 10. -/
def getAllProducts (db : DB) (q : ProductQuery) : ProductListResp :=
  { products :=
      (((db.products.filter (matchesQuery q)).drop ((q.page.getD 1 - 1) * q.limit.getD 10)).take
        (q.limit.getD 10))
    pagination :=
      { page := q.page.getD 1, limit := q.limit.getD 10
        total := (db.products.filter (matchesQuery q)).length } }

/-- Concrete fixture: a registered client. -/
def seedUser : User :=
  { id := 0, email := "cliente@teste.com", password := hashPw "senha123"
    name := "Cliente Teste", role := .CLIENTE }

/-- Concrete fixture: the client's cart. -/
def seedCart : Cart := { id := 1, userId := 0 }

/-- Concrete fixture: an available product. -/
def seedProduct : Product :=
  { id := 2, name := "Coxinha", description := "Salgado de frango", price := 500
    isAvailable := true, categoryId := 9 }

/-- Concrete fixture: a cart item for the seeded product. -/
def seedItem : CartItem := { id := 4, cartId := 1, productId := 2, quantity := 2 }

/-- Concrete fixture: a concluded order of the client. -/
def seedOrder : Order :=
  { id := 5, orderNumber := 1, userId := 0, status := .CONCLUIDO, total := 1000 }

/-- Concrete fixture database used to instantiate theorems with
hypotheses: one client with a cart holding one item, one product, one
CONCLUIDO order, counter already at 1. -/
def seedDB : DB :=
  { users := [seedUser], carts := [seedCart], products := [seedProduct]
    cartItems := [seedItem], orders := [seedOrder], orderItems := []
    history := [{ id := 3, orderId := 5, status := .PENDENTE, timestamp := 0 }]
    counter := { id := "order_counter", value := 1 }, nextId := 6, time := 1 }

/-- Concrete run, stage 1: register a client on the seeded empty store. -/
def runDB1 : DB := (register initDB { email := "a@teste.com", password := "senha123", name := "A" }).1

/-- Concrete run, stage 2: an admin creates a product. -/
def runDB2 : DB := (createProduct runDB1 "Pastel" "Pastel de carne" 700 1).1

/-- Concrete run: the payload ordering one unit of the created product. -/
def runPayload : CreateOrderPayload := { items := some [{ productId := 2, quantity := 1 }], notes := "" }

/-- Concrete run, stage 3: the client places a first order. -/
def runDB3 : DB := (createOrder runDB2 0 runPayload).1

/-- Concrete run, stage 4: the client places a second order. -/
def runDB4 : DB := (createOrder runDB3 0 runPayload).1

theorem login_error_unauthorized (db : DB) (r : LoginReq) (e : ApiError)
    (h : login db r = .error e) : e = .unauthorized "Credenciais invalidas" := by
  unfold login at h
  split at h
  · injection h with h2
    exact h2.symm
  · split at h
    · simp at h
    · injection h with h2
      exact h2.symm

/-- C3: a registration request whose email is already registered yields a
409 Conflict error, regardless of the other field values, and no new user
is created (the store is returned unchanged). -/
theorem register_duplicate_email_conflict (db : DB) (req : RegisterReq) (u : User)
    (hu : u ∈ db.users) (he : u.email = req.email) :
    register db req = (db, .error (.conflict "Email ja cadastrado")) ∧
    (ApiError.conflict "Email ja cadastrado").statusCode = 409 := by
  have hany : db.users.any (fun v => v.email == req.email) = true :=
    List.any_eq_true.mpr ⟨u, hu, by simp [he]⟩
  exact ⟨by simp [register, hany], rfl⟩

theorem register_duplicate_email_conflict_witness :
    seedUser ∈ seedDB.users ∧
    seedUser.email = (RegisterReq.mk "cliente@teste.com" "outra" "Outro").email ∧
    register seedDB (RegisterReq.mk "cliente@teste.com" "outra" "Outro") =
      (seedDB, .error (.conflict "Email ja cadastrado")) ∧
    (ApiError.conflict "Email ja cadastrado").statusCode = 409 :=
  ⟨by simp [seedDB], rfl,
   register_duplicate_email_conflict seedDB _ seedUser (by simp [seedDB]) rfl⟩

/-- C4: every failed login produces one and the same Unauthorized 401
error, whether the email is unknown or the password is wrong, so the two
failure causes are indistinguishable to the caller. -/
theorem login_failures_indistinguishable (db1 db2 : DB) (r1 r2 : LoginReq) (e1 e2 : ApiError)
    (h1 : login db1 r1 = .error e1) (h2 : login db2 r2 = .error e2) :
    e1 = e2 ∧ e1.statusCode = 401 := by
  rw [login_error_unauthorized db1 r1 e1 h1, login_error_unauthorized db2 r2 e2 h2]
  exact ⟨rfl, rfl⟩

theorem login_failures_indistinguishable_witness :
    login initDB (LoginReq.mk "nao@existe.com" "x") =
      .error (.unauthorized "Credenciais invalidas") ∧
    login seedDB (LoginReq.mk "cliente@teste.com" "senhaErrada") =
      .error (.unauthorized "Credenciais invalidas") ∧
    ((ApiError.unauthorized "Credenciais invalidas") = (ApiError.unauthorized "Credenciais invalidas") ∧
     (ApiError.unauthorized "Credenciais invalidas").statusCode = 401) :=
  ⟨rfl, rfl,
   login_failures_indistinguishable initDB seedDB
     (LoginReq.mk "nao@existe.com" "x") (LoginReq.mk "cliente@teste.com" "senhaErrada")
     (.unauthorized "Credenciais invalidas") (.unauthorized "Credenciais invalidas") rfl rfl⟩

/-- C5: the user object returned by a successful registration and by a
successful login carries no password field (the serialized record excludes
the hash). -/
theorem responses_exclude_password (db db2 : DB) (rq : RegisterReq) (lq : LoginReq)
    (r1 r2 : AuthResp)
    (h1 : register db rq = (db2, .ok r1)) (h2 : login db lq = .ok r2) :
    r1.user.password = none ∧ r2.user.password = none := by
  constructor
  · unfold register at h1
    split at h1
    · simp at h1
    · split at h1
      · simp at h1
      · injection h1 with ha hb
        injection hb with hc
        rw [← hc]
        rfl
  · unfold login at h2
    split at h2
    · simp at h2
    · split at h2
      · injection h2 with h3
        rw [← h3]
        rfl
      · simp at h2

theorem responses_exclude_password_witness :
    register seedDB (RegisterReq.mk "novo@teste.com" "senha123" "Novo") =
      ((register seedDB (RegisterReq.mk "novo@teste.com" "senha123" "Novo")).1,
       .ok (AuthResp.mk "token:6" (UserResponse.mk 6 "novo@teste.com" "Novo" .CLIENTE none))) ∧
    login seedDB (LoginReq.mk "cliente@teste.com" "senha123") =
      .ok (AuthResp.mk "token:0" (UserResponse.mk 0 "cliente@teste.com" "Cliente Teste" .CLIENTE none)) ∧
    ((AuthResp.mk "token:6" (UserResponse.mk 6 "novo@teste.com" "Novo" .CLIENTE none)).user.password = none ∧
     (AuthResp.mk "token:0" (UserResponse.mk 0 "cliente@teste.com" "Cliente Teste" .CLIENTE none)).user.password = none) :=
  ⟨rfl, rfl,
   responses_exclude_password seedDB
     (register seedDB (RegisterReq.mk "novo@teste.com" "senha123" "Novo")).1
     (RegisterReq.mk "novo@teste.com" "senha123" "Novo")
     (LoginReq.mk "cliente@teste.com" "senha123")
     (AuthResp.mk "token:6" (UserResponse.mk 6 "novo@teste.com" "Novo" .CLIENTE none))
     (AuthResp.mk "token:0" (UserResponse.mk 0 "cliente@teste.com" "Cliente Teste" .CLIENTE none))
     rfl rfl⟩

/-- C10: the public product listing is paginated and filterable.  The
response's pagination object carries the requested page (default 1), the
requested limit (default 10) and the total count of catalog products
matching the filters; the page of products never exceeds the limit, and
every returned product satisfies the search, category and price filters. -/
theorem listing_paginated_and_filterable (db : DB) (q : ProductQuery) :
    (getAllProducts db q).pagination.page = q.page.getD 1 ∧
    (getAllProducts db q).pagination.limit = q.limit.getD 10 ∧
    (getAllProducts db q).pagination.total = (db.products.filter (matchesQuery q)).length ∧
    (getAllProducts db q).products.length ≤ q.limit.getD 10 ∧
    ∀ p ∈ (getAllProducts db q).products, matchesQuery q p = true := by
  refine ⟨rfl, rfl, rfl, ?_, ?_⟩
  · exact List.length_take_le _ _
  · intro p hp
    have h1 : p ∈ db.products.filter (matchesQuery q) :=
      List.mem_of_mem_drop (List.mem_of_mem_take hp)
    exact (List.mem_filter.mp h1).2

theorem filter_not_self_idem {α : Type} (p : α → Bool) (l : List α) :
    (l.filter p).filter p = l.filter p := by
  induction l with
  | nil => rfl
  | cons a t ih =>
    by_cases h : p a <;> simp [List.filter_cons, h, ih]

theorem filter_neg_then_pos (l : List CartItem) (cid : Nat) :
    (l.filter (fun it => !(it.cartId == cid))).filter (fun it => it.cartId == cid) = [] := by
  induction l with
  | nil => rfl
  | cons a t ih =>
    by_cases h : a.cartId = cid <;> simp [List.filter_cons, h, ih]

theorem clearCart_idem (db : DB) (uid : Nat) :
    clearCart (clearCart db uid).1 uid = clearCart db uid := by
  cases hc : db.carts.find? (fun x => x.userId == uid) with
  | none =>
    have h1 : clearCart db uid = (db, .error (.notFound "Carrinho nao encontrado")) := by
      unfold clearCart
      rw [hc]
    rw [h1]
    exact h1
  | some c =>
    have h1 : clearCart db uid =
        ({ db with cartItems := db.cartItems.filter (fun it => !(it.cartId == c.id)) }, .ok ()) := by
      unfold clearCart
      rw [hc]
    rw [h1]
    have hc2 : ({ db with cartItems := db.cartItems.filter (fun it => !(it.cartId == c.id)) } : DB).carts.find?
        (fun x => x.userId == uid) = some c := hc
    unfold clearCart
    rw [hc2]
    have h3 : ((db.cartItems.filter (fun it => !(it.cartId == c.id))).filter
        (fun it => !(it.cartId == c.id))) = db.cartItems.filter (fun it => !(it.cartId == c.id)) :=
      filter_not_self_idem _ _
    rw [Prod.mk.injEq]
    refine ⟨?_, rfl⟩
    congr 1

/-- C8: clearing the cart empties it while the Cart row itself survives,
and the operation is idempotent: clearing an already-empty cart succeeds
and leaves zero items. -/
theorem clearCart_empties_and_idempotent (db : DB) (uid : Nat) (c : Cart)
    (hc : db.carts.find? (fun x => x.userId == uid) = some c) :
    (clearCart db uid).2 = .ok () ∧
    (clearCart db uid).1.carts = db.carts ∧
    (clearCart db uid).1.cartItems.filter (fun it => it.cartId == c.id) = [] ∧
    clearCart (clearCart db uid).1 uid = clearCart db uid := by
  have h1 : clearCart db uid =
      ({ db with cartItems := db.cartItems.filter (fun it => !(it.cartId == c.id)) }, .ok ()) := by
    unfold clearCart
    rw [hc]
  rw [h1]
  exact ⟨rfl, rfl, filter_neg_then_pos _ _, by rw [← h1]; exact clearCart_idem db uid⟩

theorem clearCart_empties_and_idempotent_witness :
    seedDB.carts.find? (fun x => x.userId == 0) = some seedCart ∧
    ((clearCart seedDB 0).2 = .ok () ∧
     (clearCart seedDB 0).1.carts = seedDB.carts ∧
     (clearCart seedDB 0).1.cartItems.filter (fun it => it.cartId == seedCart.id) = [] ∧
     clearCart (clearCart seedDB 0).1 0 = clearCart seedDB 0) :=
  ⟨rfl, clearCart_empties_and_idempotent seedDB 0 seedCart rfl⟩

/-- C7: adding a nonexistent product to the cart fails with NotFound and
leaves the store unchanged, while an absent quantity field defaults to 1:
the call succeeds for an existing product and behaves exactly like an
explicit quantity of 1. -/
theorem addItem_notfound_and_default_qty (db : DB) (uid pid1 pid2 q : Nat) (c : Cart) (p : Product)
    (hc : db.carts.find? (fun x => x.userId == uid) = some c)
    (hnone : db.products.find? (fun x => x.id == pid1) = none)
    (hsome : db.products.find? (fun x => x.id == pid2) = some p) :
    addItem db uid (AddItemReq.mk pid1 (some q)) =
      (db, .error (.notFound "Produto nao encontrado")) ∧
    (addItem db uid (AddItemReq.mk pid2 none)).2 = .ok () ∧
    addItem db uid (AddItemReq.mk pid2 none) = addItem db uid (AddItemReq.mk pid2 (some 1)) := by
  refine ⟨?_, ?_, rfl⟩
  · unfold addItem
    rw [hnone]
  · unfold addItem
    rw [hsome]
    dsimp only
    rw [if_neg (by simp [AddItemReq.qty])]
    rw [hc]
    dsimp only
    split <;> rfl

theorem addItem_notfound_and_default_qty_witness :
    seedDB.carts.find? (fun x => x.userId == 0) = some seedCart ∧
    seedDB.products.find? (fun x => x.id == 999) = none ∧
    seedDB.products.find? (fun x => x.id == 2) = some seedProduct ∧
    (addItem seedDB 0 (AddItemReq.mk 999 (some 1)) =
       (seedDB, .error (.notFound "Produto nao encontrado")) ∧
     (addItem seedDB 0 (AddItemReq.mk 2 none)).2 = .ok () ∧
     addItem seedDB 0 (AddItemReq.mk 2 none) = addItem seedDB 0 (AddItemReq.mk 2 (some 1))) :=
  ⟨rfl, rfl, rfl, addItem_notfound_and_default_qty seedDB 0 999 2 1 seedCart seedProduct rfl rfl rfl⟩

theorem bumpItem_cartId (cartId productId q : Nat) (it : CartItem) :
    (bumpItem cartId productId q it).cartId = it.cartId := by
  unfold bumpItem
  split <;> rfl

theorem bumpItem_productId (cartId productId q : Nat) (it : CartItem) :
    (bumpItem cartId productId q it).productId = it.productId := by
  unfold bumpItem
  split <;> rfl

/-- C6: adding a product that is already a cart item does not add a row:
the operation succeeds, the cart item count is unchanged, the existing
item reappears with its quantity incremented by the requested amount, and
the per (cartId, productId) uniqueness of the table is preserved. -/
theorem addItem_existing_increments (db : DB) (uid : Nat) (req : AddItemReq)
    (c : Cart) (it0 : CartItem) (p : Product)
    (hc : db.carts.find? (fun x => x.userId == uid) = some c)
    (hp : db.products.find? (fun x => x.id == req.productId) = some p)
    (hit : it0 ∈ db.cartItems) (hcid : it0.cartId = c.id) (hpid : it0.productId = req.productId)
    (hq : req.qty ≠ 0) (huniq : UniqueCartProduct db) :
    (addItem db uid req).2 = .ok () ∧
    (addItem db uid req).1.cartItems.length = db.cartItems.length ∧
    bumpItem c.id req.productId req.qty it0 ∈ (addItem db uid req).1.cartItems ∧
    (bumpItem c.id req.productId req.qty it0).quantity = it0.quantity + req.qty ∧
    UniqueCartProduct (addItem db uid req).1 := by
  have hany : db.cartItems.any (fun it => it.cartId == c.id && it.productId == req.productId) = true :=
    List.any_eq_true.mpr ⟨it0, hit, by simp [hcid, hpid]⟩
  have hqf : (req.qty == 0) = false := by
    simp [hq]
  have heq : addItem db uid req =
      ({ db with cartItems := db.cartItems.map (bumpItem c.id req.productId req.qty) }, .ok ()) := by
    unfold addItem
    rw [hp]
    dsimp only
    rw [hqf]
    rw [if_neg (by decide)]
    rw [hc]
    dsimp only
    rw [hany]
    rw [if_pos rfl]
  rw [heq]
  refine ⟨rfl, List.length_map _ _, List.mem_map_of_mem _ hit, ?_, ?_⟩
  · unfold bumpItem
    rw [if_pos (by simp [hcid, hpid])]
  · show (db.cartItems.map (bumpItem c.id req.productId req.qty)).Pairwise _
    rw [List.pairwise_map]
    exact huniq.imp (fun h => by
      simpa [bumpItem_cartId, bumpItem_productId] using h)

theorem addItem_existing_increments_witness :
    seedDB.carts.find? (fun x => x.userId == 0) = some seedCart ∧
    seedDB.products.find? (fun x => x.id == (AddItemReq.mk 2 (some 3)).productId) = some seedProduct ∧
    seedItem ∈ seedDB.cartItems ∧
    seedItem.cartId = seedCart.id ∧
    seedItem.productId = (AddItemReq.mk 2 (some 3)).productId ∧
    (AddItemReq.mk 2 (some 3)).qty ≠ 0 ∧
    UniqueCartProduct seedDB ∧
    ((addItem seedDB 0 (AddItemReq.mk 2 (some 3))).2 = .ok () ∧
     (addItem seedDB 0 (AddItemReq.mk 2 (some 3))).1.cartItems.length = seedDB.cartItems.length ∧
     bumpItem seedCart.id (AddItemReq.mk 2 (some 3)).productId (AddItemReq.mk 2 (some 3)).qty seedItem ∈
       (addItem seedDB 0 (AddItemReq.mk 2 (some 3))).1.cartItems ∧
     (bumpItem seedCart.id (AddItemReq.mk 2 (some 3)).productId (AddItemReq.mk 2 (some 3)).qty seedItem).quantity =
       seedItem.quantity + (AddItemReq.mk 2 (some 3)).qty ∧
     UniqueCartProduct (addItem seedDB 0 (AddItemReq.mk 2 (some 3))).1) :=
  ⟨rfl, rfl, by simp [seedDB], rfl, rfl, by decide,
   by unfold UniqueCartProduct; exact List.pairwise_singleton _ _,
   addItem_existing_increments seedDB 0 (AddItemReq.mk 2 (some 3)) seedCart seedItem seedProduct
     rfl rfl (by simp [seedDB]) rfl rfl (by decide)
     (by unfold UniqueCartProduct; exact List.pairwise_singleton _ _)⟩

/-- C2: for every order in a state with no outgoing transition to the
requested status (a CONCLUIDO order being cancelled, a PENDENTE order set
straight to CONCLUIDO, and so on), the admin status update fails with a
Conflict (409) error and returns the store unchanged, so the order status
and its OrderStatusHistory rows are exactly as before: no silent no-op;
and whenever the order belongs to the requesting user and cancellation is
likewise not an allowed transition, the user cancellation fails the same
way. -/
theorem invalid_transition_conflict (db : DB) (uid oid : Nat) (o : Order) (target : OrderStatus)
    (hfind : db.orders.find? (fun x => x.id == oid) = some o)
    (hno : allowedTransition o.status target = false) :
    (updateStatus db oid target = (db, .error (.conflict "Transicao de status invalida")) ∧
     (ApiError.conflict "Transicao de status invalida").statusCode = 409) ∧
    (o.userId = uid → allowedTransition o.status .CANCELADO = false →
      cancelOrder db uid oid = (db, .error (.conflict "Pedido nao pode ser cancelado"))) := by
  refine ⟨⟨?_, rfl⟩, ?_⟩
  · unfold updateStatus
    rw [hfind]
    dsimp only
    rw [hno]
    rw [if_neg (by simp)]
  · intro hmine hcancel
    unfold cancelOrder
    rw [hfind]
    dsimp only
    rw [if_pos (by simp [hmine])]
    rw [hcancel]
    rw [if_neg (by simp)]

theorem invalid_transition_conflict_witness :
    seedDB.orders.find? (fun x => x.id == 5) = some seedOrder ∧
    allowedTransition seedOrder.status .CANCELADO = false ∧
    ((updateStatus seedDB 5 .CANCELADO = (seedDB, .error (.conflict "Transicao de status invalida")) ∧
      (ApiError.conflict "Transicao de status invalida").statusCode = 409) ∧
     (seedOrder.userId = 0 → allowedTransition seedOrder.status .CANCELADO = false →
       cancelOrder seedDB 0 5 = (seedDB, .error (.conflict "Pedido nao pode ser cancelado")))) :=
  ⟨rfl, rfl,
   invalid_transition_conflict seedDB 0 5 seedOrder .CANCELADO rfl rfl⟩

/-- C9: on every product write route (create, update, delete, availability
toggle, image upload), a request without a valid bearer token is rejected
with 401 and one from an authenticated CLIENTE is rejected with 403, the
catalog untouched in both cases since the handler never runs; any request
that does pass the middleware chain is authenticated as an ADMIN. -/
theorem product_write_routes_admin_only (r : RouteDef) (db : DB)
    (handler : DB → DB × Except ApiError Unit) (u : User) (ctx : Option User)
    (hr : r ∈ productWriteRoutes) (hrole : u.role = .CLIENTE)
    (hpass : runChain ctx r.middlewares = none) :
    dispatch r none db handler = (db, .error (.unauthorized "Nao autenticado")) ∧
    (ApiError.unauthorized "Nao autenticado").statusCode = 401 ∧
    dispatch r (some u) db handler = (db, .error (.forbidden "Acesso restrito a administradores")) ∧
    (ApiError.forbidden "Acesso restrito a administradores").statusCode = 403 ∧
    ctx.map (fun v => v.role) = some Role.ADMIN := by
  have hmw : r.middlewares = [.auth, .admin, .validateBody] ∨
      r.middlewares = [.auth, .admin] ∨
      r.middlewares = [.auth, .admin, .uploadSingle, .handleUploadErr] := by
    simp only [productWriteRoutes, List.mem_cons, List.not_mem_nil, or_false] at hr
    rcases hr with h | h | h | h | h <;> subst h <;> simp
  have hctx : ctx.map (fun v => v.role) = some Role.ADMIN := by
    cases hctx0 : ctx with
    | none =>
      subst hctx0
      rcases hmw with h | h | h <;> rw [h] at hpass <;>
        simp [runChain, runMiddleware] at hpass
    | some v =>
      subst hctx0
      by_cases hv : v.role = .ADMIN
      · simp [hv]
      · rcases hmw with h | h | h <;> rw [h] at hpass <;>
          simp [runChain, runMiddleware, hv] at hpass
  rcases hmw with h | h | h <;>
    refine ⟨?_, rfl, ?_, rfl, hctx⟩ <;>
    simp [dispatch, h, runChain, runMiddleware, hrole]

theorem product_write_routes_admin_only_witness :
    RouteDef.mk .POST "/api/products" [.auth, .admin, .validateBody] ∈ productWriteRoutes ∧
    (User.mk 7 "c@t.com" "h" "C" .CLIENTE).role = .CLIENTE ∧
    runChain (some (User.mk 8 "a@t.com" "h" "A" .ADMIN))
      (RouteDef.mk .POST "/api/products" [.auth, .admin, .validateBody]).middlewares = none ∧
    (dispatch (RouteDef.mk .POST "/api/products" [.auth, .admin, .validateBody]) none seedDB
       (fun d => (d, .ok ())) = (seedDB, .error (.unauthorized "Nao autenticado")) ∧
     (ApiError.unauthorized "Nao autenticado").statusCode = 401 ∧
     dispatch (RouteDef.mk .POST "/api/products" [.auth, .admin, .validateBody])
       (some (User.mk 7 "c@t.com" "h" "C" .CLIENTE)) seedDB (fun d => (d, .ok ())) =
       (seedDB, .error (.forbidden "Acesso restrito a administradores")) ∧
     (ApiError.forbidden "Acesso restrito a administradores").statusCode = 403 ∧
     (some (User.mk 8 "a@t.com" "h" "A" .ADMIN)).map (fun v => v.role) = some Role.ADMIN) :=
  ⟨by simp [productWriteRoutes], rfl, rfl,
   product_write_routes_admin_only
     (RouteDef.mk .POST "/api/products" [.auth, .admin, .validateBody]) seedDB
     (fun d => (d, .ok ())) (User.mk 7 "c@t.com" "h" "C" .CLIENTE)
     (some (User.mk 8 "a@t.com" "h" "A" .ADMIN))
     (by simp [productWriteRoutes]) rfl rfl⟩

theorem counterInv_of_eq {db db2 : DB} (h : CounterInv db)
    (ho : db2.orders = db.orders) (hc : db2.counter = db.counter) : CounterInv db2 := by
  obtain ⟨h1, h2, h3⟩ := h
  refine ⟨by rw [hc]; exact h1, by rw [ho]; exact h2, ?_⟩
  intro o hm
  rw [hc]
  exact h3 o (by rw [← ho]; exact hm)

theorem register_keeps (db : DB) (req : RegisterReq) :
    (register db req).1.orders = db.orders ∧ (register db req).1.counter = db.counter := by
  unfold register
  repeat' split
  all_goals exact ⟨rfl, rfl⟩

theorem createProduct_keeps (db : DB) (name description : String) (price categoryId : Nat) :
    (createProduct db name description price categoryId).1.orders = db.orders ∧
    (createProduct db name description price categoryId).1.counter = db.counter := by
  unfold createProduct
  repeat' split
  all_goals exact ⟨rfl, rfl⟩

theorem addItem_keeps (db : DB) (userId : Nat) (req : AddItemReq) :
    (addItem db userId req).1.orders = db.orders ∧
    (addItem db userId req).1.counter = db.counter := by
  unfold addItem
  repeat' split
  all_goals exact ⟨rfl, rfl⟩

theorem updateItem_keeps (db : DB) (userId itemId quantity : Nat) :
    (updateItem db userId itemId quantity).1.orders = db.orders ∧
    (updateItem db userId itemId quantity).1.counter = db.counter := by
  unfold updateItem
  repeat' split
  all_goals exact ⟨rfl, rfl⟩

theorem removeItem_keeps (db : DB) (userId itemId : Nat) :
    (removeItem db userId itemId).1.orders = db.orders ∧
    (removeItem db userId itemId).1.counter = db.counter := by
  unfold removeItem
  repeat' split
  all_goals exact ⟨rfl, rfl⟩

theorem clearCart_keeps (db : DB) (userId : Nat) :
    (clearCart db userId).1.orders = db.orders ∧
    (clearCart db userId).1.counter = db.counter := by
  unfold clearCart
  repeat' split
  all_goals exact ⟨rfl, rfl⟩

theorem setOrderStatus_numbers (l : List Order) (oid : Nat) (s : OrderStatus) :
    (setOrderStatus l oid s).map (fun o => o.orderNumber) = l.map (fun o => o.orderNumber) := by
  induction l with
  | nil => rfl
  | cons a t ih =>
    by_cases h : a.id == oid <;>
      simp only [setOrderStatus, List.map_cons, h, if_true, if_false, Bool.false_eq_true,
        ite_true, ite_false] at ih ⊢ <;>
      rw [ih]

theorem setOrderStatus_mem {l : List Order} {oid : Nat} {s : OrderStatus} {o : Order}
    (h : o ∈ setOrderStatus l oid s) : ∃ o2 ∈ l, o.orderNumber = o2.orderNumber := by
  unfold setOrderStatus at h
  obtain ⟨o2, hm, he⟩ := List.mem_map.mp h
  refine ⟨o2, hm, ?_⟩
  by_cases h2 : o2.id == oid <;> simp [h2] at he <;> rw [← he]

theorem applyTransition_inv {db : DB} (oid : Nat) (s : OrderStatus) (h : CounterInv db) :
    CounterInv (applyTransition db oid s) := by
  obtain ⟨h1, h2, h3⟩ := h
  refine ⟨h1, ?_, ?_⟩
  · show ((setOrderStatus db.orders oid s).map (fun o => o.orderNumber)).Pairwise (· < ·)
    rw [setOrderStatus_numbers]
    exact h2
  · intro o hm
    obtain ⟨o2, hm2, he⟩ := setOrderStatus_mem hm
    rw [he]
    exact h3 o2 hm2

theorem cancelOrder_inv (db : DB) (userId orderId : Nat) (h : CounterInv db) :
    CounterInv (cancelOrder db userId orderId).1 := by
  unfold cancelOrder
  repeat' split
  all_goals first
    | exact h
    | exact applyTransition_inv _ _ h

theorem updateStatus_inv (db : DB) (orderId : Nat) (s : OrderStatus) (h : CounterInv db) :
    CounterInv (updateStatus db orderId s).1 := by
  unfold updateStatus
  repeat' split
  all_goals first
    | exact h
    | exact applyTransition_inv _ _ h

theorem commitOrder_inv (db : DB) (userId : Nat) (sourceCartId : Option Nat)
    (resolved : List (Product × Nat)) (h : CounterInv db) :
    CounterInv (commitOrder db userId sourceCartId resolved).1 := by
  obtain ⟨h1, h2, h3⟩ := h
  refine ⟨h1, ?_, ?_⟩
  · show ((db.orders ++ [newOrderOf db userId resolved]).map (fun o => o.orderNumber)).Pairwise (· < ·)
    rw [List.map_append, List.pairwise_append]
    refine ⟨h2, List.pairwise_singleton _ _, ?_⟩
    intro a ha b hb
    simp only [List.map_cons, List.map_nil, List.mem_singleton] at hb
    obtain ⟨o, ho, he⟩ := List.mem_map.mp ha
    have hle := h3 o ho
    rw [← he, hb]
    show o.orderNumber < db.counter.value + 1
    omega
  · intro o hm
    show o.orderNumber ≤ db.counter.value + 1
    rcases List.mem_append.mp hm with h4 | h4
    · have := h3 o h4
      omega
    · simp only [List.mem_singleton] at h4
      rw [h4]
      show db.counter.value + 1 ≤ db.counter.value + 1
      omega

theorem createOrder_inv (db : DB) (userId : Nat) (payload : CreateOrderPayload)
    (h : CounterInv db) : CounterInv (createOrder db userId payload).1 := by
  unfold createOrder
  cases db.carts.find? (fun c => c.userId == userId) with
  | none => exact h
  | some cart =>
    dsimp only
    by_cases h1 : (requestedItems db cart.id payload).isEmpty = true
    · rw [if_pos h1]
      exact h
    · rw [if_neg h1]
      by_cases h2 : ((requestedItems db cart.id payload).any (fun it => it.quantity == 0)) = true
      · rw [if_pos h2]
        exact h
      · rw [if_neg h2]
        cases resolveProducts db (requestedItems db cart.id payload) with
        | error e => exact h
        | ok resolved => exact commitOrder_inv _ _ _ _ h

theorem step_preserves {db db2 : DB} (hs : Step db db2) (h : CounterInv db) : CounterInv db2 := by
  cases hs with
  | reg req =>
    exact counterInv_of_eq h (register_keeps db req).1 (register_keeps db req).2
  | prod name description price categoryId =>
    exact counterInv_of_eq h (createProduct_keeps db name description price categoryId).1
      (createProduct_keeps db name description price categoryId).2
  | add userId req =>
    exact counterInv_of_eq h (addItem_keeps db userId req).1 (addItem_keeps db userId req).2
  | upd userId itemId quantity =>
    exact counterInv_of_eq h (updateItem_keeps db userId itemId quantity).1
      (updateItem_keeps db userId itemId quantity).2
  | rem userId itemId =>
    exact counterInv_of_eq h (removeItem_keeps db userId itemId).1
      (removeItem_keeps db userId itemId).2
  | clear userId =>
    exact counterInv_of_eq h (clearCart_keeps db userId).1 (clearCart_keeps db userId).2
  | create userId payload => exact createOrder_inv db userId payload h
  | cancel userId orderId => exact cancelOrder_inv db userId orderId h
  | status orderId s => exact updateStatus_inv db orderId s h

theorem reachable_counterInv {db : DB} (h : Reachable db) : CounterInv db := by
  induction h with
  | refl =>
    refine ⟨rfl, List.Pairwise.nil, ?_⟩
    intro o hm
    simp [initDB] at hm
  | tail _ hs ih => exact step_preserves hs ih

/-- C1: in every reachable state, the order numbers in creation order are
strictly increasing (so later-created orders have strictly larger numbers),
pairwise distinct and never reused (a cancelled order keeps its row and no
number is issued twice), every issued number is bounded by the single
order_counter row, and that counter row is the one seeded by the setup. -/
theorem orderNumbers_unique_monotone (db : DB) (h : Reachable db) :
    db.counter.id = "order_counter" ∧
    (db.orders.map (fun o => o.orderNumber)).Pairwise (· < ·) ∧
    (db.orders.map (fun o => o.orderNumber)).Nodup ∧
    ∀ o ∈ db.orders, o.orderNumber ≤ db.counter.value := by
  obtain ⟨h1, h2, h3⟩ := reachable_counterInv h
  exact ⟨h1, h2, h2.imp (fun hlt => Nat.ne_of_lt hlt), h3⟩

theorem runDB4_reachable : Reachable runDB4 := by
  have s1 : Step initDB runDB1 :=
    Step.reg initDB (RegisterReq.mk "a@teste.com" "senha123" "A")
  have s2 : Step runDB1 runDB2 := Step.prod runDB1 "Pastel" "Pastel de carne" 700 1
  have s3 : Step runDB2 runDB3 := Step.create runDB2 0 runPayload
  have s4 : Step runDB3 runDB4 := Step.create runDB3 0 runPayload
  exact Relation.ReflTransGen.tail
    (Relation.ReflTransGen.tail
      (Relation.ReflTransGen.tail (Relation.ReflTransGen.tail Relation.ReflTransGen.refl s1) s2)
      s3)
    s4

theorem orderNumbers_unique_monotone_witness :
    Reachable runDB4 ∧
    (runDB4.counter.id = "order_counter" ∧
     (runDB4.orders.map (fun o => o.orderNumber)).Pairwise (· < ·) ∧
     (runDB4.orders.map (fun o => o.orderNumber)).Nodup ∧
     ∀ o ∈ runDB4.orders, o.orderNumber ≤ runDB4.counter.value) :=
  ⟨runDB4_reachable, orderNumbers_unique_monotone runDB4 runDB4_reachable⟩

end Canteen
